import Mathlib

/-!
Shallow embedding of `src/main.py` of the `mcp-server-mongo` repository:
an MCP server exposing four MongoDB read tools (`list_collections`,
`query_collection`, `count_documents`, `get_collection_stats`) over one
shared client/database handle opened and closed by `app_lifespan`.

The MongoDB driver itself is external to the repository, so its observable
behaviour is modelled: a logical database is an association list from
collection names to lists of documents, documents are association lists
from field names to BSON-like values, and a per-call `fault` oracle stands
for "the driver raised an exception with this message during this call".
The handlers are embedded in state-passing style over `AppContext`
(result, updated context) so that absence of mutation is a theorem, not a
modelling artifact.
-/

set_option autoImplicit false

namespace McpServerMongo

/-- Model of a BSON value as stored in a document (spec section 9: tagged
union of value kinds; nested arrays and mappings included). -/
inductive BVal where
  | null : BVal
  | bool : Bool → BVal
  | int : Int → BVal
  | str : String → BVal
  | arr : List BVal → BVal
  | obj : List (String × BVal) → BVal

mutual

/-- Boolean equality on BSON values. -/
def beqBVal : BVal → BVal → Bool
  | .null, .null => true
  | .bool a, .bool b => a == b
  | .int a, .int b => a == b
  | .str a, .str b => a == b
  | .arr a, .arr b => beqBValList a b
  | .obj a, .obj b => beqBValObj a b
  | _, _ => false

/-- Boolean equality on lists of BSON values. -/
def beqBValList : List BVal → List BVal → Bool
  | [], [] => true
  | a :: as, b :: bs => beqBVal a b && beqBValList as bs
  | _, _ => false

/-- Boolean equality on BSON objects. -/
def beqBValObj : List (String × BVal) → List (String × BVal) → Bool
  | [], [] => true
  | kv1 :: r1, kv2 :: r2 => kv1.1 == kv2.1 && beqBVal kv1.2 kv2.2 && beqBValObj r1 r2
  | _, _ => false

end

instance : BEq BVal := ⟨beqBVal⟩

/-- A document: an ordered mapping from field names to values. -/
abbrev Doc := List (String × BVal)

/-- Model of the logical database selected by `client[MONGODB_DATABASE]`:
the collections it holds, each a name paired with its stored documents. -/
abbrev Database := List (String × List Doc)

/-- Model of the `MongoClient` handle: only its identity (the URI it was
opened with) and whether it has been closed are observable here. -/
structure MongoClient where
  uri : String
deriving DecidableEq

/-- Application context with MongoDB client and database
(`AppContext` dataclass, src/main.py lines 22-27). -/
structure AppContext where
  client : MongoClient
  db : Database

/-- First value stored under field `k` in document `d`, if any. -/
def docGet (d : Doc) (k : String) : Option BVal :=
  (d.find? (fun kv => kv.1 == k)).map Prod.snd

/-- Documents of collection `coll`: in MongoDB, reading a collection that
does not exist behaves as reading an empty collection. -/
def collDocs (db : Database) (coll : String) : List Doc :=
  match db.find? (fun kv => kv.1 == coll) with
  | some kv => kv.2
  | none => []

/-- Model of filter matching for simple equality filters: a document
matches when every field of the filter is present with that exact value.
(The full MongoDB query-operator language is not exercised by the spec.) -/
def matchesFilter (q : Doc) (d : Doc) : Bool :=
  q.all (fun kv => docGet d kv.1 == some kv.2)

/-- MongoDB projection truthiness: `0`, `false`, `null` mean exclude,
anything else means include. -/
def projIncludes : BVal → Bool
  | .null => false
  | .bool b => b
  | .int i => i != 0
  | .str _ => true
  | .arr _ => true
  | .obj _ => true

/-- Model of the driver applying a projection document to a result
document: with an inclusion-style projection only the listed fields (plus
`_id` unless excluded) survive; with an exclusion-style projection the
listed fields are dropped. `none` leaves the document unchanged. -/
def applyProjection (projection : Option Doc) (d : Doc) : Doc :=
  match projection with
  | none => d
  | some p =>
    if p.any (fun kv => projIncludes kv.2 && kv.1 != "_id") then
      d.filter (fun kv =>
        (kv.1 == "_id" && !(p.any (fun pk => pk.1 == "_id" && !projIncludes pk.2)))
          || p.any (fun pk => pk.1 == kv.1 && projIncludes pk.2))
    else
      d.filter (fun kv => !(p.any (fun pk => pk.1 == kv.1)))

/-- BSON type rank used for cross-type comparisons in sorts
(null < numbers < strings < objects < arrays < booleans). -/
def typeRank : BVal → Nat
  | .null => 0
  | .int _ => 1
  | .str _ => 2
  | .obj _ => 3
  | .arr _ => 4
  | .bool _ => 5

mutual

/-- Model of the BSON comparison order between two values. -/
def cmpBVal : BVal → BVal → Ordering
  | .int a, .int b => compare a b
  | .str a, .str b => compare a b
  | .bool a, .bool b => compare a b
  | .null, .null => Ordering.eq
  | .arr a, .arr b => cmpBList a b
  | .obj a, .obj b => cmpBObj a b
  | a, b => compare (typeRank a) (typeRank b)

/-- Lexicographic comparison of BSON arrays. -/
def cmpBList : List BVal → List BVal → Ordering
  | [], [] => Ordering.eq
  | [], _ :: _ => Ordering.lt
  | _ :: _, [] => Ordering.gt
  | a :: as, b :: bs =>
    match cmpBVal a b with
    | Ordering.eq => cmpBList as bs
    | o => o

/-- Field-by-field comparison of BSON objects. -/
def cmpBObj : List (String × BVal) → List (String × BVal) → Ordering
  | [], [] => Ordering.eq
  | [], _ :: _ => Ordering.lt
  | _ :: _, [] => Ordering.gt
  | kv1 :: r1, kv2 :: r2 =>
    match compare kv1.1 kv2.1 with
    | Ordering.eq =>
      match cmpBVal kv1.2 kv2.2 with
      | Ordering.eq => cmpBObj r1 r2
      | o => o
    | o => o

end

/-- Comparison of two documents under an ordered list of
(field, direction) pairs: the first pair whose field values differ
decides; direction `-1` (more generally, any negative direction) reverses
the comparison; a missing field sorts as `null`. -/
def cmpDocs (spec : List (String × Int)) (d1 d2 : Doc) : Ordering :=
  match spec with
  | [] => Ordering.eq
  | (f, dir) :: rest =>
    let c := cmpBVal ((docGet d1 f).getD BVal.null) ((docGet d2 f).getD BVal.null)
    let c := if dir < 0 then c.swap else c
    match c with
    | Ordering.eq => cmpDocs rest d1 d2
    | o => o

/-- Boolean "less or equal" on documents induced by `cmpDocs`. -/
def docLe (spec : List (String × Int)) (d1 d2 : Doc) : Bool :=
  cmpDocs spec d1 d2 != Ordering.gt

/-- Insert a document into an already sorted list (stable: it goes before
later documents that compare equal). -/
def insertDoc (spec : List (String × Int)) (d : Doc) : List Doc → List Doc
  | [] => [d]
  | e :: es => if docLe spec d e then d :: e :: es else e :: insertDoc spec d es

/-- Model of the server-side sort requested by `cursor.sort(...)`:
insertion sort by `cmpDocs`. -/
def sortDocs (spec : List (String × Int)) : List Doc → List Doc
  | [] => []
  | d :: ds => insertDoc spec d (sortDocs spec ds)

/-- Model of `cursor.limit(n)` in pymongo: a limit of `0` means
"no limit"; a positive limit truncates the result. -/
def applyLimit (limit : Nat) (docs : List Doc) : List Doc :=
  if limit == 0 then docs else docs.take limit

/-- Python truthiness of the optional `sort` argument, as tested by
`if sort:` (src/main.py line 87): `None` and the empty mapping are falsy. -/
def sortTruthy (sort : Option (List (String × Int))) : Bool :=
  match sort with
  | none => false
  | some l => !l.isEmpty

/-- JSON escaping of one character, as `json.dumps` renders string
characters (quote and backslash escaped; other exotic escapes are not
exercised by the spec's payloads). -/
def escapeJsonChar (c : Char) : String :=
  if c = '"' then "\\\"" else if c = '\\' then "\\\\" else String.singleton c

/-- JSON escaping of a string body. -/
def escapeJson (s : String) : String :=
  String.join (s.data.map escapeJsonChar)

/-- A JSON string literal with its surrounding quotes. -/
def jsonStr (s : String) : String :=
  "\"" ++ escapeJson s ++ "\""

mutual

/-- Rendering of a value the way `json.dumps(..., default=json_util.default)`
renders it, with the default separators (comma-space, colon-space). -/
def renderBVal : BVal → String
  | .null => "null"
  | .bool b => if b then "true" else "false"
  | .int i => toString i
  | .str s => jsonStr s
  | .arr xs => "[" ++ renderBValList xs ++ "]"
  | .obj fs => "\x7b" ++ renderBValObj fs ++ "\x7d"

/-- Comma-separated rendering of array elements. -/
def renderBValList : List BVal → String
  | [] => ""
  | [x] => renderBVal x
  | x :: y :: xs => renderBVal x ++ ", " ++ renderBValList (y :: xs)

/-- Comma-separated rendering of object fields. -/
def renderBValObj : List (String × BVal) → String
  | [] => ""
  | [kv] => jsonStr kv.1 ++ ": " ++ renderBVal kv.2
  | kv :: kv2 :: fs => jsonStr kv.1 ++ ": " ++ renderBVal kv.2 ++ ", " ++ renderBValObj (kv2 :: fs)

end

/-- `json.dumps` of a list of documents (the `results` of a query). -/
def jsonDumpsDocs (docs : List Doc) : String :=
  renderBVal (BVal.arr (docs.map BVal.obj))

/-- `json.dumps` of a single document (the stats object). -/
def jsonDumpsObj (d : Doc) : String :=
  renderBVal (BVal.obj d)

/-- The in-band error payload `json.dumps` of the one-field mapping
putting the exception message under the key `error`
(src/main.py lines 96 and 125). -/
def errorPayload (e : String) : String :=
  jsonDumpsObj [("error", BVal.str e)]

/-- Names of the collections in the database, as returned by the driver's
`list_collection_names()`. -/
def listCollectionNames (db : Database) : List String :=
  db.map Prod.fst

/-- Handler `list_collections` (src/main.py lines 51-55): reads the shared
database handle and returns the driver's collection-name listing. There is
no `try` in its body, so a driver fault (the `fault` oracle) propagates
uncaught as `Except.error`. The returned context is the handler's view of
the shared state after the call. -/
def list_collections (ctx : AppContext) (fault : Option String) :
    Except String (List String) × AppContext :=
  let db := ctx.db
  match fault with
  | some e => (Except.error e, ctx)
  | none => (Except.ok (listCollectionNames db), ctx)

/-- The `results = list(cursor)` value of `query_collection`
(src/main.py lines 81-91) when the driver does not fault: find with filter
and projection, then the conditional sort, then skip, then limit. -/
def query_collection_results (db : Database) (collection : String) (query : Doc)
    (projection : Option Doc) (limit : Nat) (skip : Nat)
    (sort : Option (List (String × Int))) : List Doc :=
  let cursor := ((collDocs db collection).filter (matchesFilter query)).map
    (applyProjection projection)
  let cursor := if sortTruthy sort then sortDocs (sort.getD []) cursor else cursor
  applyLimit limit (cursor.drop skip)

/-- Handler `query_collection` (src/main.py lines 58-96). Optional-argument
defaults are those of the Python signature: projection `None`, limit `10`,
skip `0`, sort `None`. The whole body runs inside `try`, so any driver
fault is caught and re-encoded as the error payload; the handler itself
never raises (its `Except` is always `ok`). -/
def query_collection (ctx : AppContext) (collection : String) (query : Doc)
    (projection : Option Doc := none) (limit : Nat := 10) (skip : Nat := 0)
    (sort : Option (List (String × Int)) := none) (fault : Option String := none) :
    Except String String × AppContext :=
  let db := ctx.db
  match fault with
  | some e => (Except.ok (errorPayload e), ctx)
  | none =>
    (Except.ok (jsonDumpsDocs
      (query_collection_results db collection query projection limit skip sort)), ctx)

/-- Handler `count_documents` (src/main.py lines 99-109): counts the
documents of the collection matching the filter. No `try` in its body: a
driver fault propagates uncaught. The Python return type is `int`. -/
def count_documents (ctx : AppContext) (collection : String) (query : Doc)
    (fault : Option String) : Except String Int × AppContext :=
  let db := ctx.db
  match fault with
  | some e => (Except.error e, ctx)
  | none =>
    (Except.ok (Int.ofNat ((collDocs db collection).filter (matchesFilter query)).length),
      ctx)

/-- Handler `get_collection_stats` (src/main.py lines 112-125).
`statsResult` is the outcome of `db.command("collStats", collection)`,
which only the server can compute: a stats document, or an exception (for
instance on a nonexistent collection). The body runs inside `try`, so a
fault is re-encoded as the error payload and the handler never raises. -/
def get_collection_stats (ctx : AppContext) (collection : String)
    (statsResult : Except String Doc) : Except String String × AppContext :=
  let db := ctx.db
  match statsResult with
  | Except.error e => (Except.ok (errorPayload e), ctx)
  | Except.ok stats =>
    let _ := (db, collection)
    (Except.ok (jsonDumpsObj stats), ctx)

/-- Observable events of the connection lifecycle
(src/main.py lines 30-40). -/
inductive LifeEvent where
  | openClient : LifeEvent
  | yieldContext : LifeEvent
  | closeClient : LifeEvent
  | closeTopology : LifeEvent
deriving DecidableEq

/-- Lifespan `app_lifespan` (src/main.py lines 30-40), as the trace of
lifecycle events it performs together with its outcome. `startupFault`
models `MongoClient(MONGODB_URI)` raising before the `try` block (nothing
was opened, nothing is closed, the exception propagates and serving
aborts); otherwise the body of the server runs at the `yield` with outcome
`body`, and the `finally` block runs `client.close()` then
`client._topology.close()` on that exit path whatever `body` was. -/
def app_lifespan (startupFault : Option String) (body : Except String Unit) :
    List LifeEvent × Except String Unit :=
  match startupFault with
  | some e => ([], Except.error e)
  | none =>
    let opened := [LifeEvent.openClient]
    let served := [LifeEvent.yieldContext]
    let finallyBlock := [LifeEvent.closeClient, LifeEvent.closeTopology]
    (opened ++ served ++ finallyBlock, body)

/-- Concrete database used by the sort example: one collection `c` holding
the documents with `a` equal to 3, 1, 2 in that insertion order. -/
def sortDemoCtx : AppContext :=
  ⟨⟨"mongodb://localhost:27017"⟩,
    [("c", [[("a", BVal.int 3)], [("a", BVal.int 1)], [("a", BVal.int 2)]])]⟩

/-- Concrete database with one collection `c` holding two documents. -/
def twoDocCtx : AppContext :=
  ⟨⟨"mongodb://localhost:27017"⟩,
    [("c", [[("a", BVal.int 1)], [("a", BVal.int 2)]])]⟩

/-- Concrete database with two empty collections. -/
def listDemoCtx : AppContext :=
  ⟨⟨"mongodb://localhost:27017"⟩, [("users", []), ("orders", [])]⟩

/-- Claim C1: whenever the underlying driver operation raises, both
`query_collection` and `get_collection_stats` return the text-encoded JSON
object putting the exception message under the key `error` instead of
raising, and for every driver outcome whatsoever each of the two handlers
returns `ok` with some text — neither ever propagates a fault. -/
theorem claim_C1 (ctx : AppContext) (collection c2 : String) (query : Doc)
    (projection : Option Doc) (limit skip : Nat) (sort : Option (List (String × Int)))
    (fault : Option String) (statsResult : Except String Doc) (e : String) :
    (∃ s, (query_collection ctx collection query projection limit skip sort fault).1
      = Except.ok s) ∧
    (query_collection ctx collection query projection limit skip sort (some e)).1
      = Except.ok (errorPayload e) ∧
    (∃ t, (get_collection_stats ctx c2 statsResult).1 = Except.ok t) ∧
    (get_collection_stats ctx c2 (Except.error e)).1 = Except.ok (errorPayload e) := by
  refine ⟨?_, rfl, ?_, rfl⟩
  · cases fault <;> exact ⟨_, rfl⟩
  · cases statsResult <;> exact ⟨_, rfl⟩

/-- Claim C2: `count_documents` and `list_collections` have no local error
handling — a driver fault propagates uncaught out of the handler, with no
in-band error payload. -/
theorem claim_C2 (ctx : AppContext) (collection : String) (query : Doc) (e : String) :
    (count_documents ctx collection query (some e)).1 = Except.error e ∧
    (list_collections ctx (some e)).1 = Except.error e :=
  ⟨rfl, rfl⟩

/-- Claim C3: on a collection holding documents with field `a` equal to
3, 1, 2, querying with sort mapping `a` to `1` yields the documents in
ascending order 1, 2, 3, and with `a` mapped to `-1` in descending order
3, 2, 1 — directions `+1` and `-1` mean ascending and descending. -/
theorem claim_C3 :
    (query_collection sortDemoCtx "c" [] none 10 0 (some [("a", 1)]) none).1
      = Except.ok (jsonDumpsDocs
        [[("a", BVal.int 1)], [("a", BVal.int 2)], [("a", BVal.int 3)]]) ∧
    (query_collection sortDemoCtx "c" [] none 10 0 (some [("a", -1)]) none).1
      = Except.ok (jsonDumpsDocs
        [[("a", BVal.int 3)], [("a", BVal.int 2)], [("a", BVal.int 1)]]) := by
  constructor <;> rfl

/-- Claim C4: a `query_collection` call with empty filter, skip 0 and a
positive limit `L` on a collection of at least `L` documents returns the
text encoding of a sequence of exactly `L` documents. -/
theorem claim_C4 (ctx : AppContext) (collection : String) (L : Nat)
    (hL : 0 < L) (hN : L ≤ (collDocs ctx.db collection).length) :
    (query_collection_results ctx.db collection [] none L 0 none).length = L ∧
    (query_collection ctx collection [] none L 0 none none).1
      = Except.ok (jsonDumpsDocs
        (query_collection_results ctx.db collection [] none L 0 none)) := by
  constructor
  · have hfilter : (collDocs ctx.db collection).filter (matchesFilter [])
        = collDocs ctx.db collection :=
      List.filter_eq_self.mpr (fun a _ => rfl)
    have hbeq : ¬((L == 0) = true) := by
      simpa using Nat.pos_iff_ne_zero.mp hL
    show (applyLimit L (((collDocs ctx.db collection).filter (matchesFilter [])).map
      (applyProjection none))).length = L
    rw [hfilter, show applyProjection none = id from rfl, List.map_id]
    unfold applyLimit
    rw [if_neg hbeq, List.length_take]
    omega
  · rfl

/-- Closed instance of claim C4 at a two-document collection with limit 1. -/
theorem claim_C4_witness :
    (query_collection_results twoDocCtx.db "c" [] none 1 0 none).length = 1 ∧
    (query_collection twoDocCtx "c" [] none 1 0 none none).1
      = Except.ok (jsonDumpsDocs
        (query_collection_results twoDocCtx.db "c" [] none 1 0 none)) :=
  claim_C4 twoDocCtx "c" 1 (by decide) (by decide)

/-- Claim C5: `count_documents` with an empty filter returns the total
number of documents stored in the collection. -/
theorem claim_C5 (ctx : AppContext) (collection : String) :
    (count_documents ctx collection [] none).1
      = Except.ok (Int.ofNat (collDocs ctx.db collection).length) := by
  have hfilter : (collDocs ctx.db collection).filter (matchesFilter [])
      = collDocs ctx.db collection :=
    List.filter_eq_self.mpr (fun a _ => rfl)
  show Except.ok (Int.ofNat ((collDocs ctx.db collection).filter (matchesFilter [])).length)
    = Except.ok (Int.ofNat (collDocs ctx.db collection).length)
  rw [hfilter]

/-- Claim C6: on a database whose collection names are distinct (as they
are in MongoDB), `list_collections` returns exactly the names present in
the database — every name, no others — with no duplicates. -/
theorem claim_C6 (ctx : AppContext) (hnd : (ctx.db.map Prod.fst).Nodup) :
    (list_collections ctx none).1 = Except.ok (listCollectionNames ctx.db) ∧
    listCollectionNames ctx.db = ctx.db.map Prod.fst ∧
    (listCollectionNames ctx.db).Nodup :=
  ⟨rfl, rfl, hnd⟩

/-- Closed instance of claim C6 at a two-collection database. -/
theorem claim_C6_witness :
    (list_collections listDemoCtx none).1 = Except.ok (listCollectionNames listDemoCtx.db) ∧
    listCollectionNames listDemoCtx.db = listDemoCtx.db.map Prod.fst ∧
    (listCollectionNames listDemoCtx.db).Nodup :=
  claim_C6 listDemoCtx (by decide)

/-- Claim C7: a `query_collection` call omitting the optional arguments is
the call with projection absent, limit 10, skip 0, sort absent (and no
fault injected) — the declared defaults of the RPC surface. -/
theorem claim_C7 (ctx : AppContext) (collection : String) (query : Doc) :
    query_collection ctx collection query
      = query_collection ctx collection query none 10 0 none none :=
  rfl

/-- Claim C8: the lifespan opens exactly one client; on every exit path
through the serving scope — normal or failing body — the final two events
are `client.close()` then topology close, each happening exactly once, and
the body's outcome is propagated; if the client cannot even be constructed,
nothing is opened and startup aborts with the error. -/
theorem claim_C8 (body : Except String Unit) (e : String) :
    (app_lifespan none body).1.count LifeEvent.openClient = 1 ∧
    (app_lifespan none body).1.count LifeEvent.closeClient = 1 ∧
    (app_lifespan none body).1.count LifeEvent.closeTopology = 1 ∧
    (app_lifespan none body).1.reverse.take 2
      = [LifeEvent.closeTopology, LifeEvent.closeClient] ∧
    (app_lifespan none body).2 = body ∧
    app_lifespan (some e) body = ([], Except.error e) := by
  refine ⟨?_, ?_, ?_, rfl, rfl, rfl⟩ <;> rfl

/-- Claim C9: each of the four tool handlers leaves the shared connection
context untouched — the `AppContext` after any call equals the one before,
whatever the arguments and the driver outcome. -/
theorem claim_C9 (ctx : AppContext) (collection c2 c3 : String) (query q2 : Doc)
    (projection : Option Doc) (limit skip : Nat) (sort : Option (List (String × Int)))
    (f1 f2 f3 : Option String) (statsResult : Except String Doc) :
    (list_collections ctx f1).2 = ctx ∧
    (query_collection ctx collection query projection limit skip sort f2).2 = ctx ∧
    (count_documents ctx c2 q2 f3).2 = ctx ∧
    (get_collection_stats ctx c3 statsResult).2 = ctx := by
  refine ⟨?_, ?_, ?_, ?_⟩
  · cases f1 <;> rfl
  · cases f2 <;> rfl
  · cases f3 <;> rfl
  · cases statsResult <;> rfl

/-- Claim C10: passing the empty sort mapping to `query_collection` is the
same call as omitting sort entirely, for every collection, filter,
projection, limit, skip and driver outcome — `if sort:` treats the empty
mapping as absent. -/
theorem claim_C10 (ctx : AppContext) (collection : String) (query : Doc)
    (projection : Option Doc) (limit skip : Nat) (fault : Option String) :
    query_collection ctx collection query projection limit skip (some []) fault
      = query_collection ctx collection query projection limit skip none fault := by
  cases fault <;> rfl

end McpServerMongo
